import Mathlib

/-!
Verification development for the VPN tunnel manager
(mac/gui/vpn_manager.py): a shallow embedding of the tunnel descriptor
builder, hostname resolution, the device-side apply/disconnect/status
routines, and the manager-level registries with the poll loop, together
with theorems settling the specification claims.

Modelling conventions:
  * Shell commands issued over the device channel either succeed or fail;
    outcomes that the code consults are passed in as explicit Boolean or
    Option-valued oracles.  Outcomes whose exit status the code discards
    (all the `2>/dev/null; true` routing commands) are modelled by their
    effect on an explicit routing state.
  * The Linux kernel rejects an exact duplicate route or rule
    (EEXIST, suppressed by the code), so presence of each fixed
    route/rule is a Boolean and the set of proxy host routes is a
    duplicate-free list.
  * Python floats for timestamps are modelled as integers; the code only
    compares differences against whole-second delays.
-/

/-! ## Character and string helpers (Python semantics) -/

/-- The single-quote character, written via its code point. -/
def squote : Char := Char.ofNat 39

/-- The newline character. -/
def nlChar : Char := Char.ofNat 10

/-- Single-quote as a one-character string. -/
def sqS : String := String.singleton squote

/-- Python regex `\s` on ASCII input: space, tab, newline, CR, FF, VT. -/
def isPySpace (c : Char) : Bool :=
  c == ' ' || c == Char.ofNat 9 || c == Char.ofNat 10 ||
  c == Char.ofNat 13 || c == Char.ofNat 12 || c == Char.ofNat 11

/-- Python `str.strip()` on ASCII input: drop whitespace from both ends. -/
def pyStrip (l : List Char) : List Char :=
  ((l.dropWhile isPySpace).reverse.dropWhile isPySpace).reverse

/-- Python `s.replace("'", "''")` from `_build_tunnel_config`:
    every single quote is doubled (YAML single-quote escaping). -/
def escapeSQ : List Char → List Char
  | [] => []
  | c :: t => if c == squote then squote :: squote :: escapeSQ t else c :: escapeSQ t

/-- Inverse reading of YAML single-quote escaping: collapse each doubled
    quote back to one quote.  Used to state that escaping is faithful. -/
def unescapeSQ : List Char → List Char
  | [] => []
  | [c] => [c]
  | c :: c2 :: t =>
    if c == squote && c2 == squote then squote :: unescapeSQ t
    else c :: unescapeSQ (c2 :: t)

/-- String-level wrapper for `escapeSQ`. -/
def pyReplaceQuote (s : String) : String := String.mk (escapeSQ s.data)

/-! ## Constants from the source -/

/-- fwmark used to prevent routing loops (`TUNNEL_MARK`). -/
def TUNNEL_MARK : Nat := 438

/-- legacy routing table number (`TUNNEL_TABLE`). -/
def TUNNEL_TABLE : Nat := 20

/-- on-device pid-file path (`TUNNEL_PID`). -/
def TUNNEL_PID : String := "/data/local/tmp/hev-socks5-tunnel.pid"

/-! ## TunnelDescriptorBuilder: `_build_tunnel_config` -/

/-- The `auth_lines` value computed inside `_build_tunnel_config`:
    a credentials block only when both username and password are
    non-empty (Python string truthiness), with single quotes doubled. -/
def authLines (username password : String) : String :=
  if username ≠ "" ∧ password ≠ "" then
    "  username: " ++ sqS ++ pyReplaceQuote username ++ sqS ++ "\n" ++
    "  password: " ++ sqS ++ pyReplaceQuote password ++ sqS ++ "\n"
  else ""

/-- Embedding of `_build_tunnel_config(server, port, username, password)`:
    the YAML descriptor text, by string concatenation exactly as in the
    f-string of the source.  The server is interpolated unescaped. -/
def build_tunnel_config (server : String) (port : Nat)
    (username password : String) : String :=
  "tunnel:\n" ++
  "  name: tun0\n" ++
  "  mtu: 1500\n" ++
  "  ipv4: 198.18.0.1\n" ++
  "\n" ++
  "socks5:\n" ++
  "  port: " ++ toString port ++ "\n" ++
  "  address: " ++ sqS ++ server ++ sqS ++ "\n" ++
  "  udp: " ++ sqS ++ "tcp" ++ sqS ++ "\n" ++
  authLines username password ++
  "  mark: " ++ toString TUNNEL_MARK ++ "\n" ++
  "\n" ++
  "misc:\n" ++
  "  task-stack-size: 24576\n" ++
  "  connect-timeout: 5000\n" ++
  "  read-write-timeout: 60000\n" ++
  "  log-level: warn\n" ++
  "  pid-file: " ++ TUNNEL_PID ++ "\n"

/-! ## Hostname resolution: `_resolve_host`

The two socket-library primitives are external C calls, so they are
passed in as oracles: `aton s = true` models `socket.inet_aton(s)`
accepting `s` as an IPv4 literal, `dns s` models `socket.gethostbyname`
returning an address (`none` models `socket.gaierror`). -/

/-- Embedding of `_resolve_host(hostname)`: an accepted IPv4 literal is
    returned as-is; otherwise the DNS answer, or the hostname unchanged
    when resolution fails. -/
def resolve_host (aton : String → Bool) (dns : String → Option String)
    (hostname : String) : String :=
  if aton hostname then hostname
  else
    match dns hostname with
    | some ip => ip
    | none => hostname

/-! ## Device-side routing and tunnel state -/

/-- Device routing entries the code manipulates.  Fixed routes and rules
    are Booleans (the kernel rejects exact duplicates, and the code
    suppresses that error), the per-proxy `/32` host routes are a
    duplicate-free list of IP strings. -/
structure RoutingState where
  /-- route `0.0.0.0/1 dev tun0` in the main table -/
  splitLow : Bool
  /-- route `128.0.0.0/1 dev tun0` in the main table -/
  splitHigh : Bool
  /-- rule `fwmark 438 lookup eth0 pref 9000` -/
  ruleFwmark9000 : Bool
  /-- rule `lookup main pref 9500` -/
  ruleMain9500 : Bool
  /-- legacy rules and table-20 routes from older versions (only ever deleted) -/
  legacy : Bool
  /-- host routes `IP/32 via 10.0.2.2 dev eth0` for proxy server IPs -/
  hostRoutes : List String
  /-- route `default via 10.0.2.2 dev eth0` in the main table -/
  defaultRoute : Bool
  deriving DecidableEq, Repr

/-- Full device state touched by the tunnel lifecycle code. -/
structure DeviceState where
  routing : RoutingState
  /-- the `tun0` interface exists -/
  tun0 : Bool
  /-- the tunnel daemon process is alive -/
  daemonRunning : Bool
  /-- content of `/data/local/tmp/hev-socks5-tunnel.yml`, if present -/
  configText : Option String
  /-- the pid file exists -/
  pidFile : Bool
  deriving DecidableEq, Repr

/-- Structured `{ok, error}` result returned by apply and disconnect. -/
structure ApplyResult where
  ok : Bool
  error : String
  deriving DecidableEq, Repr

/-- Embedding of `_cleanup_routing(adb_exe, serial)`: deletes the two
    split routes, the pref-9000/9500 rules and the legacy rules/table.
    It does NOT touch the proxy `/32` host routes or the default route. -/
def cleanup_routing (r : RoutingState) : RoutingState :=
  { r with splitLow := false, splitHigh := false,
           ruleFwmark9000 := false, ruleMain9500 := false, legacy := false }

/-- Effect of `ip route add IP/32 via 10.0.2.2 dev eth0 2>/dev/null; true`:
    insert unless the identical route already exists. -/
def addHostRoute (ip : String) (l : List String) : List String :=
  if l.contains ip then l else ip :: l

/-- A device with no tunnel artifacts at all. -/
def emptyDevice : DeviceState :=
  { routing := { splitLow := false, splitHigh := false, ruleFwmark9000 := false,
                 ruleMain9500 := false, legacy := false, hostRoutes := [],
                 defaultRoute := false },
    tun0 := false, daemonRunning := false, configText := none, pidFile := false }

/-- Embedding of `write_proxy_config(adb_exe, serial, server, port,
    username, password)`, the apply path.  Oracles: `binaryOk` is the
    outcome of `_ensure_binary` (presence check / push with retries),
    `configWriteOk` the exit status of the base64 config write,
    `tun0Up` whether `tun0` appeared within the bounded poll of step 8
    (a failure there is tolerated and only logged), `daemonAlive`
    whether the step-13 `kill -0` probe printed RUNNING.  The step-13b
    geo patch only rewrites spoofing profiles and is not part of the
    tunnel/routing state.  Returns the final device state and the
    `{ok, error}` result. -/
def write_proxy_config (aton : String → Bool) (dns : String → Option String)
    (st : DeviceState) (server : String) (port : Nat)
    (username password : String)
    (binaryOk configWriteOk tun0Up daemonAlive : Bool) :
    DeviceState × ApplyResult :=
  -- step 0: resolve the hostname before any routing change
  let server_ip := resolve_host aton dns server
  -- step 1: ensure the binary is on the device
  if !binaryOk then (st, ⟨false, "Failed to push tunnel binary to device"⟩)
  else
    -- step 2: kill any existing tunnel, remove the pid file
    let st := { st with daemonRunning := false, pidFile := false }
    -- step 3: clean up old routing and delete a stale tun0
    let st := { st with routing := cleanup_routing st.routing, tun0 := false }
    -- step 4: ensure a default gateway exists in the main table
    let st := { st with routing := { st.routing with defaultRoute := true } }
    -- step 5: write the YAML config (base64-transferred)
    if !configWriteOk then (st, ⟨false, "Failed to write config: "⟩)
    else
      let yaml := build_tunnel_config server_ip port username password
      let st := { st with configText := some yaml }
      -- steps 6-8: rp_filter, daemon start, bounded wait for tun0
      let st := { st with tun0 := tun0Up }
      -- step 10: host route for the proxy IP via the gateway
      let st := { st with routing :=
        { st.routing with hostRoutes := addHostRoute server_ip st.routing.hostRoutes } }
      -- step 11: split routes via tun0
      let st := { st with routing := { st.routing with splitLow := true, splitHigh := true } }
      -- step 12: pref-9000 and pref-9500 ip rules
      let st := { st with routing :=
        { st.routing with ruleFwmark9000 := true, ruleMain9500 := true } }
      -- step 13: verify the daemon is alive; on failure remove routing
      if daemonAlive then
        ({ st with daemonRunning := true, pidFile := true }, ⟨true, ""⟩)
      else
        ({ st with routing := cleanup_routing st.routing },
         ⟨false, "Tunnel daemon failed to start — check proxy credentials"⟩)

/-! ## Substring and regex models

`read_vpn_status` and `read_current_config` use `"RUNNING" in stdout`
style substring tests and two `re.search` patterns:
`address:\s*'?([^'\n]+)` and multiline `^\s*port:\s*(\d+)`.  These are
modelled character-exactly, including the leftmost-position scan and the
backtracking order of the greedy quantifiers. -/

/-- Prefix test on character lists. -/
def isPrefixB : List Char → List Char → Bool
  | [], _ => true
  | _ :: _, [] => false
  | a :: as, b :: bs => a == b && isPrefixB as bs

/-- Python substring test `needle in hay`. -/
def containsB : List Char → List Char → Bool
  | needle, [] => needle.isEmpty
  | needle, c :: rest => isPrefixB needle (c :: rest) || containsB needle rest

/-- Character class of the capture group: any character other than a
    single quote or a newline. -/
def addrCapChar (c : Char) : Bool := !(c == squote || c == nlChar)

/-- Attempt of the pattern tail at a fixed split of the whitespace run:
    an optional single quote (tried consumed first, then skipped) and
    then the greedy one-or-more capture of non-quote non-newline
    characters. -/
def capAt (cs : List Char) : Option (List Char) :=
  match cs with
  | [] => none
  | c :: rest =>
    if c == squote then
      let cap := rest.takeWhile addrCapChar
      if cap.isEmpty then none else some cap
    else
      let cap := (c :: rest).takeWhile addrCapChar
      if cap.isEmpty then none else some cap

/-- Backtracking over the greedy whitespace run: try a split consuming
    `k` characters, largest first; the engine only ever consumes a
    prefix of the maximal whitespace run. -/
def wsTry : Nat → List Char → Option (List Char)
  | 0, cs => capAt cs
  | k + 1, cs =>
    match capAt (cs.drop (k + 1)) with
    | some cap => some cap
    | none => wsTry k cs

/-- Match of the address-pattern tail right after the literal. -/
def matchAddrTail (cs : List Char) : Option (List Char) :=
  wsTry (cs.takeWhile isPySpace).length cs

/-- Leftmost search of the address pattern, scanning start positions
    left to right as the engine does. -/
def searchAddr : List Char → Option (List Char)
  | [] => none
  | c :: rest =>
    if isPrefixB (("address:").data) (c :: rest) then
      match matchAddrTail ((c :: rest).drop (("address:").data).length) with
      | some cap => some cap
      | none => searchAddr rest
    else searchAddr rest

/-- Match of the anchored port pattern at one anchor position.  The
    characters of a whitespace run can never start the literal or the
    digit group, so only the maximal run matches and no backtracking
    arises for this pattern. -/
def portAt (cs : List Char) : Option (List Char) :=
  let rest1 := cs.dropWhile isPySpace
  if isPrefixB (("port:").data) rest1 then
    let rest2 := (rest1.drop (("port:").data).length).dropWhile isPySpace
    let ds := rest2.takeWhile Char.isDigit
    if ds.isEmpty then none else some ds
  else none

/-- Anchored scan: try each position following a newline, in order. -/
def searchPortFrom : List Char → Option (List Char)
  | [] => none
  | c :: rest =>
    if c == nlChar then
      match portAt rest with
      | some d => some d
      | none => searchPortFrom rest
    else searchPortFrom rest

/-- Multiline search of the port pattern: the start of the text is the
    leftmost anchor, then every position after a newline. -/
def searchPort (cs : List Char) : Option (List Char) :=
  match portAt cs with
  | some d => some d
  | none => searchPortFrom cs

/-! ## StatusReader: `read_vpn_status` -/

/-- Raw observation consumed by `read_vpn_status`: exit code and stdout
    of the pid-file liveness probe, of the `ip link show tun0` probe,
    and of the config `head -50` read. -/
structure VpnObs where
  pidExit : Int
  pidOut : String
  tunExit : Int
  tunOut : String
  confExit : Int
  confOut : String
  deriving DecidableEq, Repr

/-- The `daemon_running` Boolean computed by `read_vpn_status`. -/
def daemonRunning_of (o : VpnObs) : Bool :=
  o.pidExit == 0 && containsB (("RUNNING").data) o.pidOut.data

/-- The `{state, server}` record returned by the status reader. -/
structure VpnStatus where
  state : String
  server : String
  deriving DecidableEq, Repr

/-- The endpoint-string parse of `read_vpn_status`: address match
    (stripped), with `:port` appended when the port also matches. -/
def parseServerField (text : String) : String :=
  match searchAddr text.data with
  | some cap =>
    let addr := String.mk (pyStrip cap)
    let prt :=
      match searchPort text.data with
      | some d => String.mk (pyStrip d)
      | none => ""
    if prt ≠ "" then addr ++ ":" ++ prt else addr
  | none => ""

/-- Embedding of `read_vpn_status(adb_exe, serial)`.  Total: every
    observation yields a status record, never an error. -/
def read_vpn_status (o : VpnObs) : VpnStatus :=
  let state :=
    if daemonRunning_of o then
      if o.tunExit == 0 && containsB (("tun0").data) o.tunOut.data then "connected"
      else "reconnecting"
    else "stopped"
  let server :=
    if o.confExit == 0 && !(pyStrip o.confOut.data).isEmpty then parseServerField o.confOut
    else ""
  ⟨state, server⟩

/-- The `server` entry of `read_current_config` as consulted by
    `disconnect_vpn` (`config.get("server", "")`). -/
def read_current_config_server (confExit : Int) (confOut : String) : String :=
  if confExit == 0 && !(pyStrip confOut.data).isEmpty then
    match searchAddr confOut.data with
    | some cap => String.mk (pyStrip cap)
    | none => ""
  else ""

/-- Embedding of `disconnect_vpn(adb_exe, serial)`.  `confReadExit` is
    the exit code of the config read; its stdout is the stored config
    text when it succeeds.  The exit codes of every teardown command
    (routing cleanup, host-route removal, daemon kill, file removal)
    are discarded by the code, so they do not appear as inputs; the
    function unconditionally returns `{ok := true}`. -/
def disconnect_vpn (st : DeviceState) (confReadExit : Int) : DeviceState × ApplyResult :=
  let confOut := if confReadExit == 0 then st.configText.getD "" else ""
  let proxy_ip := read_current_config_server confReadExit confOut
  let r1 := cleanup_routing st.routing
  let r2 := if proxy_ip ≠ "" then { r1 with hostRoutes := r1.hostRoutes.erase proxy_ip } else r1
  ({ st with routing := r2, daemonRunning := false, pidFile := false, configText := none },
   ⟨true, ""⟩)

/-! ## VPNManager registries and poll loop

The manager state is the registry part of `VPNManager`: the status
cache, the always-on map, the reconnect-state map and the kill-switch
set, all keyed by instance name.  Device-side effects are modelled by
the device functions above; the poll-loop iteration takes the observed
status and the outcome of a reconnect `apply_proxy` call as oracles.
`enable_kill_switch` is a placeholder in the source (logging only), so
re-enabling it on reconnect changes no modelled state. -/

/-- `self._RECONNECT_BASE_DELAY` (seconds before first retry). -/
def RECONNECT_BASE_DELAY : Nat := 10

/-- `self._RECONNECT_MAX_DELAY` (maximum backoff). -/
def RECONNECT_MAX_DELAY : Nat := 300

/-- `self._RECONNECT_MAX_ATTEMPTS` (give up after this many failures). -/
def RECONNECT_MAX_ATTEMPTS : Nat := 10

/-- Reconnect tracking entry `{last_attempt, attempts}`. -/
structure RState where
  last : Int
  attempts : Nat
  deriving DecidableEq, Repr

/-- A saved always-on proxy assignment `{server, port, username, password}`. -/
structure ProxyCfg where
  server : String
  port : Nat
  username : String
  password : String
  deriving DecidableEq, Repr

/-- Registry state owned by `VPNManager`. -/
structure MgrState where
  statuses : String → Option VpnStatus
  alwaysOn : String → Option ProxyCfg
  reconnect : String → Option RState
  killSwitch : String → Bool

/-- Pointwise map update (dict assignment / `pop`). -/
def updO {β : Type} (f : String → Option β) (k : String) (v : Option β) :
    String → Option β :=
  fun x => if x = k then v else f x

/-- The exponential-backoff delay of the poll loop:
    `min(base * 2 ** attempts, max_delay)`. -/
def delayOf (attempts : Nat) : Nat :=
  min (RECONNECT_BASE_DELAY * 2 ^ attempts) RECONNECT_MAX_DELAY

/-- The reconnect decision block of `_poll_loop`, as a pure function of
    the tracking entry and the current time.  Returns
    (attempt now?, give-up reported?, new entry).  The written-back
    entry equals the input exactly when neither flag is set, matching
    the branches in which the code stores `rs`. -/
def reconnectDecide (rs : RState) (now : Int) : Bool × Bool × RState :=
  if RECONNECT_MAX_ATTEMPTS ≤ rs.attempts then
    if rs.attempts = RECONNECT_MAX_ATTEMPTS then (false, true, ⟨rs.last, rs.attempts + 1⟩)
    else (false, false, rs)
  else if (delayOf rs.attempts : Int) ≤ now - rs.last then (true, false, ⟨now, rs.attempts + 1⟩)
  else (false, false, rs)

/-- What one poll-loop body reports for one instance. -/
structure PollInfo where
  attempted : Bool
  gaveUpReported : Bool
  deriving DecidableEq, Repr

/-- One post-cooldown iteration of the `_poll_loop` body for one
    instance: cache the observed status, then the always-on reconnect
    logic.  `applyOk` is the outcome of the `apply_proxy` call when an
    attempt is made (on success `apply_proxy` itself rewrites the cached
    status to `reconnecting` and the loop zeroes the backoff entry). -/
def pollStep (st : MgrState) (name : String) (observed : VpnStatus)
    (now : Int) (applyOk : Bool) : MgrState × PollInfo :=
  let st1 := { st with statuses := updO st.statuses name (some observed) }
  if observed.state = "stopped" then
    match st1.alwaysOn name with
    | some cfg =>
      let rs := (st1.reconnect name).getD ⟨0, 0⟩
      let d := reconnectDecide rs now
      let st2 :=
        if d.1 || d.2.1 then { st1 with reconnect := updO st1.reconnect name (some d.2.2) }
        else st1
      if d.1 && applyOk then
        ({ st2 with
            statuses := updO st2.statuses name
              (some ⟨"reconnecting", cfg.server ++ ":" ++ toString cfg.port⟩),
            reconnect := updO st2.reconnect name (some ⟨0, 0⟩) },
         ⟨d.1, d.2.1⟩)
      else (st2, ⟨d.1, d.2.1⟩)
    | none => (st1, ⟨false, false⟩)
  else
    if observed.state = "connected" ∧ (st1.reconnect name).isSome then
      ({ st1 with reconnect := updO st1.reconnect name none }, ⟨false, false⟩)
    else (st1, ⟨false, false⟩)

/-- Registry effect of `VPNManager.disconnect(instance_name, serial)`:
    kill-switch membership discarded, always-on registration removed,
    cached status set to stopped.  The reconnect-state map is not
    touched by the source.  The device-side effect and the returned
    result are `disconnect_vpn` above. -/
def mgrDisconnect (st : MgrState) (name : String) : MgrState :=
  { statuses := updO st.statuses name (some ⟨"stopped", ""⟩),
    alwaysOn := updO st.alwaysOn name none,
    reconnect := st.reconnect,
    killSwitch := fun k => if k = name then false else st.killSwitch k }

/-- `VPNManager.set_always_on`: store the config, or remove the entry
    when disabling.  The reconnect-state map is not touched. -/
def set_always_on (st : MgrState) (name : String) (cfg : Option ProxyCfg) : MgrState :=
  { st with alwaysOn := updO st.alwaysOn name cfg }

/-- `VPNManager.set_kill_switch` (the on-device part is a placeholder). -/
def set_kill_switch (st : MgrState) (name : String) (enabled : Bool) : MgrState :=
  { st with killSwitch := fun k => if k = name then enabled else st.killSwitch k }

/-- Manager operations that can interleave between poll iterations.
    `pollErr` is the exception path of the loop body, which caches an
    unknown status and never attempts a reconnect. -/
inductive MgrOp where
  | poll (name : String) (observed : VpnStatus) (now : Int) (applyOk : Bool)
  | pollErr (name : String)
  | disc (name : String)
  | setAO (name : String) (cfg : Option ProxyCfg)
  | setKS (name : String) (enabled : Bool)

/-- One manager operation. -/
def stepM (st : MgrState) : MgrOp → MgrState × PollInfo
  | .poll n o now ok => pollStep st n o now ok
  | .pollErr n => ({ st with statuses := updO st.statuses n (some ⟨"unknown", ""⟩) }, ⟨false, false⟩)
  | .disc n => (mgrDisconnect st n, ⟨false, false⟩)
  | .setAO n cfg => (set_always_on st n cfg, ⟨false, false⟩)
  | .setKS n e => (set_kill_switch st n e, ⟨false, false⟩)

/-- Run a sequence of manager operations. -/
def runM (st : MgrState) : List MgrOp → MgrState
  | [] => st
  | op :: ops => runM (stepM st op).1 ops

/-- Is this operation a poll iteration for the given instance? -/
def opIsPollOn (name : String) : MgrOp → Bool
  | .poll n _ _ _ => n == name
  | _ => false

/-- Does this operation register always-on for the given instance? -/
def reenablesAO (name : String) : MgrOp → Bool
  | .setAO n (some _) => n == name
  | _ => false

/-- Whether any poll iteration for `name` along the run attempts a
    reconnect. -/
def anyAttemptFor (name : String) (st : MgrState) : List MgrOp → Bool
  | [] => false
  | op :: ops =>
    let r := stepM st op
    (opIsPollOn name op && r.2.attempted) || anyAttemptFor name r.1 ops

/-- A freshly constructed manager: all registries empty. -/
def mgrInit : MgrState :=
  { statuses := fun _ => none, alwaysOn := fun _ => none,
    reconnect := fun _ => none, killSwitch := fun _ => false }

/-- Iterated reconnect decisions over a list of poll times with no
    external reset (consecutive failures): counts attempts made and
    give-up reports, and returns the final tracking entry. -/
def decideRun (rs : RState) : List Int → Nat × Nat × RState
  | [] => (0, 0, rs)
  | t :: ts =>
    let d := reconnectDecide rs t
    let r := decideRun d.2.2 ts
    ((if d.1 then 1 else 0) + r.1, (if d.2.1 then 1 else 0) + r.2.1, r.2.2)

/-- Oracle accepting every string as an IPv4 literal (for concrete runs
    whose servers are dotted quads). -/
def atonAll : String → Bool := fun _ => true

/-- Oracle with no DNS answers. -/
def dnsNone : String → Option String := fun _ => none

/-! # Theorems -/

/-! ## Quote-escaping lemmas -/

lemma unescapeSQ_cons_of_ne (c : Char) (rest : List Char) (h : (c == squote) = false) :
    unescapeSQ (c :: rest) = c :: unescapeSQ rest := by
  cases rest with
  | nil => rfl
  | cons d t => simp [unescapeSQ, h]

lemma unescapeSQ_escapeSQ (l : List Char) : unescapeSQ (escapeSQ l) = l := by
  induction l with
  | nil => rfl
  | cons c t ih =>
    by_cases h : c = squote
    · subst h
      simp [escapeSQ, unescapeSQ, ih]
    · have hb : (c == squote) = false := by simp [h]
      rw [escapeSQ]
      rw [hb]
      simp only [Bool.false_eq_true, if_false]
      rw [unescapeSQ_cons_of_ne c _ hb, ih]

lemma authLines_ne_empty (u w : String) (hu : u ≠ "") (hw : w ≠ "") :
    authLines u w ≠ "" := by
  rw [authLines, if_pos ⟨hu, hw⟩]
  intro h
  have hlen := congrArg String.length h
  simp only [String.length_append] at hlen
  rw [show ("  username: ").length = 12 from rfl] at hlen
  rw [show ("" : String).length = 0 from rfl] at hlen
  omega

/-! ## Host-route insertion lemmas -/

lemma mem_addHostRoute_self (ip : String) (l : List String) :
    ip ∈ addHostRoute ip l := by
  rw [addHostRoute]
  split
  · next h => simpa using h
  · exact List.mem_cons_self _ _

lemma mem_addHostRoute_mono (ip x : String) (l : List String)
    (h : x ∈ l) : x ∈ addHostRoute ip l := by
  rw [addHostRoute]
  split
  · exact h
  · exact List.mem_cons_of_mem _ h

/-! ## Claim C7 -/

/-- C7, amended: the descriptor builder is pure and deterministic; the
    credentials block is present exactly when both username and password
    are non-empty; and the single quotes of the username and password
    fields are escaped faithfully (doubling, with `unescapeSQ` its
    inverse).  The amendment drops the original claim that every input
    field is escaped: the server field is interpolated unescaped (see
    the counterexample). -/
theorem C7_descriptor_builder_amended :
    (∀ u w : String, authLines u w = "" ↔ (u = "" ∨ w = "")) ∧
    (∀ s : String, unescapeSQ (pyReplaceQuote s).data = s.data) := by
  constructor
  · intro u w
    constructor
    · intro h
      by_contra hc
      push_neg at hc
      exact authLines_ne_empty u w hc.1 hc.2 h
    · intro h
      rw [authLines, if_neg]
      tauto
  · intro s
    exact unescapeSQ_escapeSQ s.data

/-- C7 witness: the amended theorem evaluated at concrete credentials
    containing a quote. -/
theorem C7_descriptor_builder_amended_witness :
    unescapeSQ (pyReplaceQuote ("a" ++ sqS ++ "b")).data = ("a" ++ sqS ++ "b").data :=
  C7_descriptor_builder_amended.2 ("a" ++ sqS ++ "b")

set_option maxRecDepth 4000 in
/-- C7 counterexample: for the server value `a'b` the generated
    descriptor embeds the single quote of the server unescaped between
    the field quotes, and nowhere contains the doubled (escaped) form,
    refuting the claim that every structural character of every input
    field is escaped. -/
theorem C7_counterexample :
    containsB (("  address: ").data ++ [squote] ++ ("a").data ++ [squote] ++ ("b").data ++ [squote])
        (build_tunnel_config ("a" ++ sqS ++ "b") 1080 "" "").data = true ∧
    containsB (("a").data ++ [squote, squote] ++ ("b").data)
        (build_tunnel_config ("a" ++ sqS ++ "b") 1080 "" "").data = false := by
  decide

/-! ## Claim C10 -/

/-- C10: hostname resolution is total and never fails the operation.
    An accepted IPv4 literal is returned unchanged, a failed DNS lookup
    returns the original hostname unchanged, and an apply on an
    unresolvable hostname proceeds: it succeeds (daemon permitting),
    embeds the unresolved hostname in the descriptor, and installs the
    proxy host route under the unresolved hostname. -/
theorem C10_resolve_host_total :
    (∀ (aton : String → Bool) (dns : String → Option String) (h : String),
        (aton h = true → resolve_host aton dns h = h) ∧
        (dns h = none → resolve_host aton dns h = h)) ∧
    (∀ (aton : String → Bool) (dns : String → Option String) (st : DeviceState)
        (server : String) (port : Nat) (u w : String) (t : Bool),
        aton server = false → dns server = none →
        ((write_proxy_config aton dns st server port u w true true t true).2.ok = true ∧
         (write_proxy_config aton dns st server port u w true true t true).1.configText =
            some (build_tunnel_config server port u w) ∧
         (write_proxy_config aton dns st server port u w true true t true).1.routing.hostRoutes.contains
            server = true)) := by
  constructor
  · intro aton dns h
    constructor
    · intro ha
      simp [resolve_host, ha]
    · intro hd
      by_cases ha : aton h
      · simp [resolve_host, ha]
      · simp [resolve_host, ha, hd]
  · intro aton dns st server port u w t ha hd
    have hres : resolve_host aton dns server = server := by
      simp [resolve_host, ha, hd]
    refine ⟨?_, ?_, ?_⟩
    · simp [write_proxy_config]
    · simp [write_proxy_config, hres]
    · simp [write_proxy_config, hres, mem_addHostRoute_self]

/-- C10 witness: the theorem applied at an IPv4 literal under an
    accepting oracle, and at an unresolvable hostname with all device
    oracles succeeding. -/
theorem C10_resolve_host_total_witness :
    resolve_host atonAll dnsNone ("10.0.0.1") = "10.0.0.1" ∧
    (write_proxy_config (fun _ => false) dnsNone emptyDevice ("proxy.example") 1080 "" ""
        true true true true).1.routing.hostRoutes.contains ("proxy.example") = true := by
  constructor
  · exact (C10_resolve_host_total.1 atonAll dnsNone ("10.0.0.1")).1 rfl
  · exact (C10_resolve_host_total.2 (fun _ => false) dnsNone emptyDevice ("proxy.example")
      1080 "" "" true rfl rfl).2.2

/-! ## Claim C1 -/

set_option maxRecDepth 8000 in
/-- C1 counterexample: two successful applies on the same fresh device
    with distinct endpoint IPs.  The second apply succeeds, yet the host
    route installed for the first endpoint IP is still present
    afterwards, refuting the claim that only the second endpoint's
    proxy-IP host route exists. -/
theorem C1_counterexample :
    ((write_proxy_config atonAll dnsNone
        (write_proxy_config atonAll dnsNone emptyDevice ("1.1.1.1") 1080 "" ""
          true true true true).1
        ("2.2.2.2") 1081 "" "" true true true true).2.ok = true) ∧
    ((write_proxy_config atonAll dnsNone
        (write_proxy_config atonAll dnsNone emptyDevice ("1.1.1.1") 1080 "" ""
          true true true true).1
        ("2.2.2.2") 1081 "" "" true true true true).1.routing.hostRoutes.contains
        ("1.1.1.1") = true) ∧
    ("1.1.1.1" : String) ≠ "2.2.2.2" := by
  refine ⟨rfl, rfl, by decide⟩

/-- C1, amended: a second apply supersedes the first's split-default
    routes, policy rules and descriptor (they are torn down and
    re-installed once, never duplicated: each is a single kernel entry),
    and installs the second endpoint's proxy-IP host route — but the
    first endpoint's proxy-IP host route is NOT removed and remains
    installed alongside. -/
theorem C1_second_apply_amended :
    ∀ (aton : String → Bool) (dns : String → Option String) (st : DeviceState)
      (s1 s2 : String) (p1 p2 : Nat) (u1 w1 u2 w2 : String) (t1 t2 : Bool),
      ((write_proxy_config aton dns st s1 p1 u1 w1 true true t1 true).2.ok = true) ∧
      ((write_proxy_config aton dns
          (write_proxy_config aton dns st s1 p1 u1 w1 true true t1 true).1
          s2 p2 u2 w2 true true t2 true).2.ok = true) ∧
      ((write_proxy_config aton dns
          (write_proxy_config aton dns st s1 p1 u1 w1 true true t1 true).1
          s2 p2 u2 w2 true true t2 true).1.routing.splitLow = true) ∧
      ((write_proxy_config aton dns
          (write_proxy_config aton dns st s1 p1 u1 w1 true true t1 true).1
          s2 p2 u2 w2 true true t2 true).1.routing.splitHigh = true) ∧
      ((write_proxy_config aton dns
          (write_proxy_config aton dns st s1 p1 u1 w1 true true t1 true).1
          s2 p2 u2 w2 true true t2 true).1.routing.ruleFwmark9000 = true) ∧
      ((write_proxy_config aton dns
          (write_proxy_config aton dns st s1 p1 u1 w1 true true t1 true).1
          s2 p2 u2 w2 true true t2 true).1.routing.ruleMain9500 = true) ∧
      ((write_proxy_config aton dns
          (write_proxy_config aton dns st s1 p1 u1 w1 true true t1 true).1
          s2 p2 u2 w2 true true t2 true).1.configText =
        some (build_tunnel_config (resolve_host aton dns s2) p2 u2 w2)) ∧
      (resolve_host aton dns s2 ∈
        (write_proxy_config aton dns
          (write_proxy_config aton dns st s1 p1 u1 w1 true true t1 true).1
          s2 p2 u2 w2 true true t2 true).1.routing.hostRoutes) ∧
      (resolve_host aton dns s1 ∈
        (write_proxy_config aton dns
          (write_proxy_config aton dns st s1 p1 u1 w1 true true t1 true).1
          s2 p2 u2 w2 true true t2 true).1.routing.hostRoutes) := by
  intro aton dns st s1 s2 p1 p2 u1 w1 u2 w2 t1 t2
  refine ⟨rfl, rfl, ?_, ?_, ?_, ?_, ?_, ?_, ?_⟩ <;>
    simp [write_proxy_config, cleanup_routing, mem_addHostRoute_self, mem_addHostRoute_mono]

/-! ## Claim C4 -/

set_option maxRecDepth 8000 in
/-- C4 counterexample: an apply on a fresh device in which the step-13
    liveness probe reports the daemon dead.  The result is a failure
    whose message contains the phrase, but the proxy-IP host route
    installed at step 10 is still present afterwards: the rollback only
    removes the split routes and policy rules, refuting the claim that
    all installed routing, the host route included, is rolled back. -/
theorem C4_counterexample :
    ((write_proxy_config atonAll dnsNone emptyDevice ("1.2.3.4") 1080 "" ""
        true true true false).2.ok = false) ∧
    (containsB (("daemon failed to start").data)
      ((write_proxy_config atonAll dnsNone emptyDevice ("1.2.3.4") 1080 "" ""
        true true true false).2.error.data) = true) ∧
    ((write_proxy_config atonAll dnsNone emptyDevice ("1.2.3.4") 1080 "" ""
        true true true false).1.routing.hostRoutes.contains ("1.2.3.4") = true) := by
  refine ⟨rfl, by decide, rfl⟩

/-- C4, amended: when the step-13 probe finds the daemon dead, apply
    returns a failure whose message contains "daemon failed to start",
    and the split-default routes and both policy rules are rolled back
    before returning — but the proxy-IP host route installed for the
    resolved server is NOT rolled back and remains installed. -/
theorem C4_daemon_failure_amended :
    ∀ (aton : String → Bool) (dns : String → Option String) (st : DeviceState)
      (server : String) (port : Nat) (u w : String) (t : Bool),
      ((write_proxy_config aton dns st server port u w true true t false).2.ok = false) ∧
      (containsB (("daemon failed to start").data)
        ((write_proxy_config aton dns st server port u w true true t false).2.error.data)
          = true) ∧
      ((write_proxy_config aton dns st server port u w true true t false).1.routing.splitLow
          = false) ∧
      ((write_proxy_config aton dns st server port u w true true t false).1.routing.splitHigh
          = false) ∧
      ((write_proxy_config aton dns st server port u w true true t false).1.routing.ruleFwmark9000
          = false) ∧
      ((write_proxy_config aton dns st server port u w true true t false).1.routing.ruleMain9500
          = false) ∧
      (resolve_host aton dns server ∈
        (write_proxy_config aton dns st server port u w true true t false).1.routing.hostRoutes) ∧
      ((write_proxy_config aton dns st server port u w true true t false).1.daemonRunning
          = false) := by
  intro aton dns st server port u w t
  refine ⟨rfl, rfl, ?_, ?_, ?_, ?_, ?_, rfl⟩ <;>
    simp [write_proxy_config, cleanup_routing, mem_addHostRoute_self]

/-! ## Claim C6 -/

/-- C6: the status reader maps every observation to exactly one of the
    three states — daemon not alive gives stopped, daemon alive with the
    tunnel interface present gives connected, daemon alive without it
    gives reconnecting — and whenever the persisted descriptor cannot be
    read (non-zero exit or blank output) or cannot be parsed (no
    address match), the configured-endpoint field is the empty string;
    the reader is a total function, so the failed read is not an
    error. -/
theorem C6_status_reader :
    (∀ o : VpnObs, daemonRunning_of o = false → (read_vpn_status o).state = "stopped") ∧
    (∀ o : VpnObs, daemonRunning_of o = true →
        (o.tunExit == 0 && containsB (("tun0").data) o.tunOut.data) = true →
        (read_vpn_status o).state = "connected") ∧
    (∀ o : VpnObs, daemonRunning_of o = true →
        (o.tunExit == 0 && containsB (("tun0").data) o.tunOut.data) = false →
        (read_vpn_status o).state = "reconnecting") ∧
    (∀ o : VpnObs,
        (read_vpn_status o).state = "stopped" ∨ (read_vpn_status o).state = "connected" ∨
        (read_vpn_status o).state = "reconnecting") ∧
    (∀ o : VpnObs, (o.confExit == 0 && !(pyStrip o.confOut.data).isEmpty) = false →
        (read_vpn_status o).server = "") ∧
    (∀ o : VpnObs, searchAddr o.confOut.data = none → (read_vpn_status o).server = "") := by
  refine ⟨?_, ?_, ?_, ?_, ?_, ?_⟩
  · intro o h
    simp [read_vpn_status, h]
  · intro o h1 h2
    simp [read_vpn_status, h1, h2]
  · intro o h1 h2
    simp [read_vpn_status, h1, h2]
  · intro o
    by_cases h1 : daemonRunning_of o
    · by_cases h2 : (o.tunExit == 0 && containsB (("tun0").data) o.tunOut.data) = true
      · simp [read_vpn_status, h1, h2]
      · simp [read_vpn_status, h1, h2]
    · simp [read_vpn_status, h1]
  · intro o h
    simp [read_vpn_status, h]
  · intro o h
    simp [read_vpn_status, parseServerField, h]

/-- C6 witness: the three state cases and an unparsable descriptor,
    evaluated at concrete observations. -/
theorem C6_status_reader_witness :
    (read_vpn_status ⟨0, "STOPPED", 0, "", 0, ""⟩).state = "stopped" ∧
    (read_vpn_status ⟨0, "RUNNING", 0, "5: tun0: <UP>", 1, ""⟩).state = "connected" ∧
    (read_vpn_status ⟨0, "RUNNING", 1, "", 1, ""⟩).state = "reconnecting" ∧
    (read_vpn_status ⟨0, "RUNNING", 0, "5: tun0: <UP>", 0, "no yaml here"⟩).server = "" := by
  refine ⟨?_, ?_, ?_, ?_⟩
  · exact C6_status_reader.1 ⟨0, "STOPPED", 0, "", 0, ""⟩ rfl
  · exact C6_status_reader.2.1 ⟨0, "RUNNING", 0, "5: tun0: <UP>", 1, ""⟩ rfl rfl
  · exact C6_status_reader.2.2.1 ⟨0, "RUNNING", 1, "", 1, ""⟩ rfl rfl
  · exact C6_status_reader.2.2.2.2.2 ⟨0, "RUNNING", 0, "5: tun0: <UP>", 0, "no yaml here"⟩ rfl

/-! ## Claim C9 -/

/-- C9: disconnect never surfaces a device-side teardown failure: for
    every device state and every outcome of the config read, the result
    of `disconnect_vpn` (which `VPNManager.disconnect` returns
    unchanged) is `{ok := true}` with no error; the exit codes of the
    routing removal, daemon kill and file cleanup commands are discarded
    by the code and cannot influence the result. -/
theorem C9_disconnect_always_ok :
    ∀ (st : DeviceState) (confReadExit : Int),
      (disconnect_vpn st confReadExit).2.ok = true ∧
      (disconnect_vpn st confReadExit).2 = ⟨true, ""⟩ := by
  intro st e
  exact ⟨rfl, rfl⟩

/-! ## Poll-loop invariant lemmas -/

lemma pollStep_alwaysOn (st : MgrState) (n : String) (o : VpnStatus)
    (now : Int) (ok : Bool) :
    ((pollStep st n o now ok).1).alwaysOn = st.alwaysOn := by
  simp only [pollStep]
  repeat' split
  all_goals rfl

lemma pollStep_killSwitch (st : MgrState) (n : String) (o : VpnStatus)
    (now : Int) (ok : Bool) :
    ((pollStep st n o now ok).1).killSwitch = st.killSwitch := by
  simp only [pollStep]
  repeat' split
  all_goals rfl

lemma pollStep_attempted_of_none (st : MgrState) (n : String) (o : VpnStatus)
    (now : Int) (ok : Bool) (h : st.alwaysOn n = none) :
    ((pollStep st n o now ok).2).attempted = false := by
  simp only [pollStep]
  rw [show ({ st with statuses := updO st.statuses n (some o) } : MgrState).alwaysOn = st.alwaysOn from rfl, h]
  repeat' split
  all_goals first
  | rfl
  | simp_all

lemma stepM_alwaysOn_none (st : MgrState) (op : MgrOp) (name : String)
    (h : st.alwaysOn name = none) (hre : reenablesAO name op = false) :
    ((stepM st op).1).alwaysOn name = none := by
  cases op with
  | poll n o now ok =>
    rw [show (stepM st (MgrOp.poll n o now ok)) = pollStep st n o now ok from rfl,
      pollStep_alwaysOn]
    exact h
  | pollErr n => exact h
  | disc n =>
    show (mgrDisconnect st n).alwaysOn name = none
    rw [mgrDisconnect]
    by_cases hn : name = n <;> simp [updO, hn, h]
  | setAO n cfg =>
    show (set_always_on st n cfg).alwaysOn name = none
    rw [set_always_on]
    cases cfg with
    | none => by_cases hn : name = n <;> simp [updO, hn, h]
    | some c =>
      have hn : (n == name) = false := by
        simpa [reenablesAO] using hre
      have hn2 : name ≠ n := by
        intro he
        rw [he] at hn
        simp at hn
      simp [updO, hn2, h]
  | setKS n e => exact h

lemma stepM_attempted_of_none (st : MgrState) (op : MgrOp) (name : String)
    (h : st.alwaysOn name = none) :
    (opIsPollOn name op && ((stepM st op).2).attempted) = false := by
  cases op with
  | poll n o now ok =>
    by_cases hn : n = name
    · subst hn
      rw [show (stepM st (MgrOp.poll n o now ok)) = pollStep st n o now ok from rfl]
      rw [pollStep_attempted_of_none st n o now ok h]
      simp
    · simp [opIsPollOn, hn]
  | pollErr n => simp [opIsPollOn]
  | disc n => simp [opIsPollOn]
  | setAO n cfg => simp [opIsPollOn]
  | setKS n e => simp [opIsPollOn]

lemma anyAttemptFor_false (name : String) :
    ∀ (ops : List MgrOp) (st : MgrState),
      st.alwaysOn name = none →
      (ops.all fun op => !reenablesAO name op) = true →
      anyAttemptFor name st ops = false := by
  intro ops
  induction ops with
  | nil => intro st h hall; rfl
  | cons op rest ih =>
    intro st h hall
    rw [List.all_cons, Bool.and_eq_true] at hall
    obtain ⟨h1, h2⟩ := hall
    rw [Bool.not_eq_true'] at h1
    have hAO : ((stepM st op).1).alwaysOn name = none := stepM_alwaysOn_none st op name h h1
    rw [anyAttemptFor]
    rw [stepM_attempted_of_none st op name h, ih (stepM st op).1 hAO h2]
    rfl

/-! ## Claim C2 -/

/-- C2: after `disconnect(device)` the device is registered neither
    always-on nor in the kill-switch set, its cached status is stopped,
    and along any subsequent sequence of manager operations containing
    no re-registration of always-on for that device — poll iterations
    with arbitrary observed statuses (stopped included), poll errors,
    other disconnects, kill-switch toggles, always-on changes for other
    devices — no poll iteration for that device ever attempts a
    reconnect. -/
theorem C2_disconnect_cancels_always_on :
    ∀ (st : MgrState) (name : String) (ops : List MgrOp),
      (ops.all fun op => !reenablesAO name op) = true →
      ((mgrDisconnect st name).alwaysOn name = none ∧
       (mgrDisconnect st name).killSwitch name = false ∧
       (mgrDisconnect st name).statuses name = some ⟨"stopped", ""⟩ ∧
       anyAttemptFor name (mgrDisconnect st name) ops = false) := by
  intro st name ops hall
  have hAO : (mgrDisconnect st name).alwaysOn name = none := by
    simp [mgrDisconnect, updO]
  refine ⟨hAO, ?_, ?_, ?_⟩
  · simp [mgrDisconnect]
  · simp [mgrDisconnect, updO]
  · exact anyAttemptFor_false name ops _ hAO hall

/-- C2 witness: a device registered always-on, then disconnected; two
    later poll iterations observing stopped make no attempt. -/
theorem C2_disconnect_cancels_always_on_witness :
    anyAttemptFor ("dev-a")
      (mgrDisconnect (set_always_on mgrInit ("dev-a") (some ⟨"1.2.3.4", 1080, "", ""⟩)) ("dev-a"))
      [MgrOp.poll ("dev-a") ⟨"stopped", ""⟩ 100 true,
       MgrOp.poll ("dev-a") ⟨"stopped", ""⟩ 200 true] = false := by
  exact (C2_disconnect_cancels_always_on
    (set_always_on mgrInit ("dev-a") (some ⟨"1.2.3.4", 1080, "", ""⟩)) ("dev-a")
    [MgrOp.poll ("dev-a") ⟨"stopped", ""⟩ 100 true,
     MgrOp.poll ("dev-a") ⟨"stopped", ""⟩ 200 true] rfl).2.2.2

/-! ## Backoff policy lemmas -/

lemma delayOf_mono {n m : Nat} (h : n ≤ m) : delayOf n ≤ delayOf m := by
  unfold delayOf
  exact min_le_min
    (Nat.mul_le_mul_left _ (Nat.pow_le_pow_right (by norm_num) h)) le_rfl

lemma delayOf_le_max (n : Nat) : delayOf n ≤ RECONNECT_MAX_DELAY :=
  min_le_right _ _

lemma reconnectDecide_attempt_iff (rs : RState) (now : Int) :
    (reconnectDecide rs now).1 = true ↔
      (rs.attempts < RECONNECT_MAX_ATTEMPTS ∧
        (delayOf rs.attempts : Int) ≤ now - rs.last) := by
  unfold reconnectDecide
  split
  · next hge =>
    split <;> simp <;> omega
  · next hlt =>
    split
    · next hd =>
      simp only [true_iff]
      exact ⟨by omega, hd⟩
    · next hd =>
      simp only [Bool.false_eq_true, false_iff, not_and]
      intro _
      exact hd

lemma reconnectDecide_attempt_state (rs : RState) (now : Int)
    (h : (reconnectDecide rs now).1 = true) :
    (reconnectDecide rs now).2.2 = ⟨now, rs.attempts + 1⟩ := by
  obtain ⟨h1, h2⟩ := (reconnectDecide_attempt_iff rs now).mp h
  unfold reconnectDecide
  rw [if_neg (by omega), if_pos h2]

lemma reconnectDecide_gt (rs : RState) (now : Int)
    (h : RECONNECT_MAX_ATTEMPTS < rs.attempts) :
    reconnectDecide rs now = (false, false, rs) := by
  unfold reconnectDecide
  rw [if_pos (le_of_lt h), if_neg (by omega)]

lemma reconnectDecide_eq_max (rs : RState) (now : Int)
    (h : rs.attempts = RECONNECT_MAX_ATTEMPTS) :
    reconnectDecide rs now = (false, true, ⟨rs.last, rs.attempts + 1⟩) := by
  unfold reconnectDecide
  rw [if_pos (by omega), if_pos h]

lemma reconnectDecide_report_iff (rs : RState) (now : Int) :
    (reconnectDecide rs now).2.1 = true ↔ rs.attempts = RECONNECT_MAX_ATTEMPTS := by
  unfold reconnectDecide
  split
  · next hge =>
    split <;> simp_all
  · next hlt =>
    split <;> simp <;> omega

lemma decideRun_no_attempt_of_ge :
    ∀ (ts : List Int) (rs : RState), RECONNECT_MAX_ATTEMPTS ≤ rs.attempts →
      (decideRun rs ts).1 = 0 := by
  intro ts
  induction ts with
  | nil => intro rs _; rfl
  | cons t ts ih =>
    intro rs h
    rcases Nat.lt_or_ge RECONNECT_MAX_ATTEMPTS rs.attempts with hgt | hle
    · simp only [decideRun, reconnectDecide_gt rs t hgt]
      simpa using ih rs h
    · have heq : rs.attempts = RECONNECT_MAX_ATTEMPTS := by omega
      simp only [decideRun, reconnectDecide_eq_max rs t heq]
      simpa using ih ⟨rs.last, rs.attempts + 1⟩ (show RECONNECT_MAX_ATTEMPTS ≤ rs.attempts + 1 by omega)

lemma decideRun_reports_of_gt :
    ∀ (ts : List Int) (rs : RState), RECONNECT_MAX_ATTEMPTS < rs.attempts →
      (decideRun rs ts).2.1 = 0 := by
  intro ts
  induction ts with
  | nil => intro rs _; rfl
  | cons t ts ih =>
    intro rs h
    simp only [decideRun, reconnectDecide_gt rs t h]
    simpa using ih rs h

lemma decideRun_reports_of_eq (ts : List Int) (rs : RState)
    (h : rs.attempts = RECONNECT_MAX_ATTEMPTS) (hne : ts ≠ []) :
    (decideRun rs ts).2.1 = 1 := by
  cases ts with
  | nil => exact absurd rfl hne
  | cons t ts =>
    simp only [decideRun, reconnectDecide_eq_max rs t h]
    simpa using decideRun_reports_of_gt ts ⟨rs.last, rs.attempts + 1⟩
      (show RECONNECT_MAX_ATTEMPTS < rs.attempts + 1 by omega)

lemma decideRun_reports_le_one :
    ∀ (ts : List Int) (rs : RState), (decideRun rs ts).2.1 ≤ 1 := by
  intro ts
  induction ts with
  | nil => intro rs; simp [decideRun]
  | cons t ts ih =>
    intro rs
    by_cases h10 : rs.attempts = RECONNECT_MAX_ATTEMPTS
    · simp only [decideRun, reconnectDecide_eq_max rs t h10]
      simpa using Nat.le_of_eq (decideRun_reports_of_gt ts ⟨rs.last, rs.attempts + 1⟩
        (show RECONNECT_MAX_ATTEMPTS < rs.attempts + 1 by omega))
    · have h1 : (reconnectDecide rs t).2.1 = false :=
        Bool.eq_false_iff.mpr (fun hb => h10 ((reconnectDecide_report_iff rs t).mp hb))
      simp only [decideRun, h1]
      simpa using ih (reconnectDecide rs t).2.2

/-! ## Claim C3 -/

/-- C3: the reconnect policy computes
    delay = min(base × 2^attempts, maxDelay), which is non-decreasing in
    the attempt count and stays at the cap once reached; an attempt is
    made iff attempts < maxAttempts and now − lastAttempt ≥ delay; an
    attempt sets the entry to {now, attempts + 1}; once
    attempts ≥ maxAttempts no run of further decisions ever attempts
    again; and the give-up condition is reported exactly once — a run
    starting at attempts = maxAttempts reports once, and no run reports
    more than once. -/
theorem C3_reconnect_policy :
    (∀ n : Nat, delayOf n = min (RECONNECT_BASE_DELAY * 2 ^ n) RECONNECT_MAX_DELAY) ∧
    (∀ n m : Nat, n ≤ m → delayOf n ≤ delayOf m) ∧
    (∀ n m : Nat, n ≤ m → delayOf n = RECONNECT_MAX_DELAY →
        delayOf m = RECONNECT_MAX_DELAY) ∧
    (∀ (rs : RState) (now : Int),
        ((reconnectDecide rs now).1 = true ↔
          (rs.attempts < RECONNECT_MAX_ATTEMPTS ∧
            (delayOf rs.attempts : Int) ≤ now - rs.last))) ∧
    (∀ (rs : RState) (now : Int), (reconnectDecide rs now).1 = true →
        (reconnectDecide rs now).2.2 = ⟨now, rs.attempts + 1⟩) ∧
    (∀ (ts : List Int) (rs : RState), RECONNECT_MAX_ATTEMPTS ≤ rs.attempts →
        (decideRun rs ts).1 = 0) ∧
    (∀ (ts : List Int) (rs : RState), rs.attempts = RECONNECT_MAX_ATTEMPTS →
        ts ≠ [] → (decideRun rs ts).2.1 = 1) ∧
    (∀ (ts : List Int) (rs : RState), (decideRun rs ts).2.1 ≤ 1) := by
  refine ⟨fun n => rfl, fun n m h => delayOf_mono h, ?_, reconnectDecide_attempt_iff,
    reconnectDecide_attempt_state, decideRun_no_attempt_of_ge,
    decideRun_reports_of_eq, decideRun_reports_le_one⟩
  intro n m h hmax
  exact le_antisymm (delayOf_le_max m) (hmax ▸ delayOf_mono h)

/-- C3 witness: the policy evaluated at concrete states — monotone
    delay, an attempt at a due time with the incremented entry, no
    attempts and exactly one report after the ceiling. -/
theorem C3_reconnect_policy_witness :
    delayOf 2 ≤ delayOf 3 ∧
    (reconnectDecide ⟨0, 0⟩ 100).1 = true ∧
    (reconnectDecide ⟨0, 0⟩ 100).2.2 = ⟨100, 1⟩ ∧
    (decideRun ⟨0, 10⟩ [100, 200]).1 = 0 ∧
    (decideRun ⟨0, 10⟩ [100, 200]).2.1 = 1 := by
  obtain ⟨h1, h2, h3, h4, h5, h6, h7, h8⟩ := C3_reconnect_policy
  have hatt : (reconnectDecide (⟨0, 0⟩ : RState) 100).1 = true :=
    (h4 ⟨0, 0⟩ 100).mpr ⟨by decide, by decide⟩
  exact ⟨h2 2 3 (by omega), hatt, h5 ⟨0, 0⟩ 100 hatt,
    h6 [100, 200] ⟨0, 10⟩ (by decide), h7 [100, 200] ⟨0, 10⟩ (by decide) (by simp)⟩

/-! ## Claim C5 -/

/-- C5 counterexample: a reachable run — register always-on, one poll
    observing stopped (which makes a failed reconnect attempt and so
    creates a reconnect-state entry), then an explicit disconnect.
    Afterwards the device is no longer registered always-on, but its
    reconnect-state entry still exists, refuting the invariant that a
    reconnect-state entry exists only for devices currently registered
    always-on (and with it the claimed discard on disconnect). -/
theorem C5_counterexample :
    ((runM mgrInit
        [MgrOp.setAO ("dev-a") (some ⟨"1.2.3.4", 1080, "", ""⟩),
         MgrOp.poll ("dev-a") ⟨"stopped", ""⟩ 100 false,
         MgrOp.disc ("dev-a")]).reconnect ("dev-a")).isSome = true ∧
    (runM mgrInit
        [MgrOp.setAO ("dev-a") (some ⟨"1.2.3.4", 1080, "", ""⟩),
         MgrOp.poll ("dev-a") ⟨"stopped", ""⟩ 100 false,
         MgrOp.disc ("dev-a")]).alwaysOn ("dev-a") = none := by
  constructor <;> rfl

/-- C5, amended: the reconnect-state entry is reset to {0, 0} by a poll
    iteration whose reconnect attempt succeeds, and discarded by a poll
    iteration observing the device connected; but explicit disconnect
    and always-on changes (disable or re-registration) leave the
    reconnect-state map untouched, so an entry can exist for a device
    that is not registered always-on. -/
theorem C5_reconnect_state_amended :
    (∀ (st : MgrState) (n : String) (o : VpnStatus) (now : Int),
        o.state = "stopped" → (st.alwaysOn n).isSome = true →
        (reconnectDecide ((st.reconnect n).getD ⟨0, 0⟩) now).1 = true →
        ((pollStep st n o now true).1).reconnect n = some ⟨0, 0⟩) ∧
    (∀ (st : MgrState) (n : String) (o : VpnStatus) (now : Int) (ok : Bool),
        o.state = "connected" → (st.reconnect n).isSome = true →
        ((pollStep st n o now ok).1).reconnect n = none) ∧
    (∀ (st : MgrState) (n : String), (mgrDisconnect st n).reconnect = st.reconnect) ∧
    (∀ (st : MgrState) (n : String) (cfg : Option ProxyCfg),
        (set_always_on st n cfg).reconnect = st.reconnect) := by
  refine ⟨?_, ?_, fun st n => rfl, fun st n cfg => rfl⟩
  · intro st n o now hst hsome hatt
    obtain ⟨cfg, hc⟩ := Option.isSome_iff_exists.mp hsome
    simp only [pollStep, hst]
    rw [show ({ st with statuses := updO st.statuses n (some o) } : MgrState).alwaysOn
        = st.alwaysOn from rfl, hc]
    simp only [hatt, Bool.true_or, Bool.true_and, if_true]
    simp [updO]
  · intro st n o now ok hst hsome
    simp only [pollStep, hst]
    simp only [show ({ st with statuses := updO st.statuses n (some o) } : MgrState).reconnect
        = st.reconnect from rfl, hsome]
    simp [updO]

/-- C5 witness: the amended behaviour evaluated at concrete states — a
    successful reconnect resets the entry to zero, and disconnect leaves
    the reconnect map unchanged. -/
theorem C5_reconnect_state_amended_witness :
    ((pollStep (set_always_on mgrInit ("dev-a") (some ⟨"1.2.3.4", 1080, "", ""⟩))
        ("dev-a") ⟨"stopped", ""⟩ 100 true).1).reconnect ("dev-a") = some ⟨0, 0⟩ ∧
    (mgrDisconnect mgrInit ("dev-a")).reconnect = mgrInit.reconnect := by
  constructor
  · exact C5_reconnect_state_amended.1
      (set_always_on mgrInit ("dev-a") (some ⟨"1.2.3.4", 1080, "", ""⟩))
      ("dev-a") ⟨"stopped", ""⟩ 100 rfl rfl (by decide)
  · exact C5_reconnect_state_amended.2.2.1 mgrInit ("dev-a")
